import Mathlib

/-!
Verification development for the Scene Session Controller of the studio
3D-asset viewer.  The definitions below are a shallow embedding of the
TypeScript source in src/components/babylon-viewer.tsx (third variant,
the animation-capable one, lines 800-1335 of the concatenated file) and
of the page-level visibility handler in the page component.

Numbers that are JavaScript doubles are modelled as rationals; camera
angles that are rational multiples of pi are modelled by their
coefficient of pi.  Engine entry points that the component merely calls
(camera.zoomOn) are modelled symbolically by a constructor recording
their argument.
-/

namespace StudioViewer

/-- JS String.prototype.startsWith, modelled structurally on the
character list so it evaluates in the kernel. -/
def strStartsWith (s p : String) : Bool :=
  p.data.isPrefixOf s.data

/-- JS String.prototype.endsWith. -/
def strEndsWith (s p : String) : Bool :=
  p.data.reverse.isPrefixOf s.data.reverse

/-- The rendering style enum RenderingMode = shaded / non-shaded / wireframe. -/
inductive RenderingMode where
  | shaded
  | nonShaded
  | wireframe
deriving DecidableEq, Repr

/-- Coarse classification of a Babylon material: PBRMaterial,
StandardMaterial, or anything else (the instanceof branches of
processSingleMaterial). -/
inductive MatClass where
  | pbr
  | standard
  | other
deriving DecidableEq, Repr

/-- The material state touched by applyRenderingModeStyle.
transparencyNonOpaque models the condition
mat.transparencyMode !== PBRMaterial.PBR_OPAQUE (meaningful for PBR). -/
structure Mat where
  cls : MatClass
  wireframe : Bool
  unlit : Bool
  disableLighting : Bool
  alpha : ℚ
  transparencyNonOpaque : Bool
  backFaceCulling : Bool
deriving DecidableEq, Repr

/-- A mesh.material slot: either a single material or a MultiMaterial
with its (nullable) subMaterials. -/
inductive MatSlot where
  | single (m : Mat)
  | multi (subs : List (Option Mat))

/-- Three-component vector over the rationals. -/
structure Vec3 where
  x : ℚ
  y : ℚ
  z : ℚ
deriving DecidableEq, Repr

/-- One animatable of an animation group.  animationLoopNonNull models
the JS test a.animationLoop !== null used by the progress tick. -/
structure Animatable where
  masterFrame : ℚ
  animationLoopNonNull : Bool
deriving Repr

/-- An animation group as the component reads it: its last frame
group.to, the frame rate declared by its first targeted animation (none
when there is no targeted animation or its animation is null, mirroring
the guard in the load handler), its loop flag, playing flag and
animatables. -/
structure AGroup where
  toFrame : ℚ
  firstAnimFrameRate : Option ℚ
  loopAnimation : Bool
  isPlaying : Bool
  animatables : List Animatable
deriving Repr

/-- An AbstractMesh as consumed by the load handler: name, visibility
and enabled state, the world-space bounding box of getBoundingInfo
(none when boundingInfo is falsy), and the material slot.  The two
instanceof flags mirror the (always-false-in-practice) instanceof
checks of the allModelMeshes filter. -/
structure AMesh where
  name : String
  isVisible : Bool
  isEnabled : Bool
  isHemisphericLight : Bool
  isArcRotateCamera : Bool
  bounds : Option (Vec3 × Vec3)
  material : Option MatSlot

/-- Node classification for scene-graph nodes, standing in for the
runtime instanceof tests (Mesh, TransformNode, HemisphericLight,
ArcRotateCamera, other Node). -/
inductive NodeKind where
  | mesh
  | transformNode
  | hemisphericLight
  | arcRotateCamera
  | other
deriving DecidableEq, Repr

/-- A Babylon scene-graph node: uniqueId, name, kind, whether
node.getScene() === scene, and its children. -/
inductive BNode where
  | mk : Nat → String → NodeKind → Bool → List BNode → BNode

def BNode.uniqueId : BNode → Nat
  | .mk u _ _ _ _ => u

def BNode.name : BNode → String
  | .mk _ n _ _ _ => n

def BNode.kind : BNode → NodeKind
  | .mk _ _ k _ _ => k

def BNode.inScene : BNode → Bool
  | .mk _ _ _ s _ => s

def BNode.children : BNode → List BNode
  | .mk _ _ _ _ c => c

/-- The serializable hierarchy view model ModelNode of types.ts:
id, name, type string, children. -/
inductive ModelNode where
  | mk : String → String → String → List ModelNode → ModelNode

def ModelNode.id : ModelNode → String
  | .mk i _ _ _ => i

def ModelNode.name : ModelNode → String
  | .mk _ n _ _ => n

def ModelNode.nodeType : ModelNode → String
  | .mk _ _ t _ => t

def ModelNode.children : ModelNode → List ModelNode
  | .mk _ _ _ c => c

/-- The loaded AssetContainer as consumed by the .then handler. -/
structure Container where
  meshes : List AMesh
  animationGroups : List AGroup
  rootNodes : List BNode

/- ------------------------------------------------------------------
Material Style Applier (applyRenderingModeStyle, third variant)
------------------------------------------------------------------- -/

/-- The alpha reset at the head of processSingleMaterial: alpha is
forced to 1 unless the material is a PBR material with a non-opaque
transparency mode. -/
def resetAlpha (m : Mat) : Mat :=
  if m.cls = MatClass.pbr ∧ m.transparencyNonOpaque = true then m
  else { m with alpha := 1 }

/-- processSingleMaterial of the third variant: reset alpha, then set
wireframe and unlit/disableLighting according to the requested mode. -/
def processSingleMaterial (mode : RenderingMode) (m0 : Mat) : Mat :=
  let m := resetAlpha m0
  match mode, m.cls with
  | .shaded, MatClass.pbr => { m with wireframe := false, unlit := false }
  | .shaded, MatClass.standard => { m with wireframe := false, disableLighting := false }
  | .shaded, MatClass.other => { m with wireframe := false }
  | .nonShaded, MatClass.pbr => { m with wireframe := false, unlit := true }
  | .nonShaded, MatClass.standard => { m with wireframe := false, disableLighting := true }
  | .nonShaded, MatClass.other => { m with wireframe := false }
  | .wireframe, MatClass.pbr => { m with wireframe := true, unlit := true }
  | .wireframe, MatClass.standard => { m with wireframe := true, disableLighting := true }
  | .wireframe, MatClass.other => { m with wireframe := true }

/-- Apply processSingleMaterial across a material slot, recursing into
the subMaterials of a MultiMaterial (null sub-materials are skipped). -/
def applyToSlot (mode : RenderingMode) : MatSlot → MatSlot
  | .single m => .single (processSingleMaterial mode m)
  | .multi subs => .multi (subs.map (Option.map (processSingleMaterial mode)))

/-- The per-mesh body of applyRenderingModeStyle: the grid mesh and
meshes without a material are skipped. -/
def applyToMesh (mode : RenderingMode) (mesh : AMesh) : AMesh :=
  if mesh.name = "grid" then mesh
  else
    match mesh.material with
    | none => mesh
    | some slot => { mesh with material := some (applyToSlot mode slot) }

/-- applyRenderingModeStyle of the third variant: a no-op for '.obj'
containers when the requested mode is non-shaded or wireframe,
otherwise restyle every non-grid mesh material. -/
def applyRenderingModeStyle (mode : RenderingMode) (ext : Option String)
    (c : Container) : Container :=
  if ext = some ".obj" ∧ (mode = RenderingMode.nonShaded ∨ mode = RenderingMode.wireframe) then c
  else { c with meshes := c.meshes.map (applyToMesh mode) }

/- ------------------------------------------------------------------
Camera Framer and the .then load handler (third variant)
------------------------------------------------------------------- -/

/-- Camera pose: either an explicit ArcRotateCamera pose (alpha and
beta are recorded as their coefficient of pi), or the symbolic result
of camera.zoomOn over the named meshes. -/
inductive CamPose where
  | pose (target : Vec3) (radius alphaPiCoeff betaPiCoeff : ℚ)
  | zoomedOn (meshNames : List String)
deriving DecidableEq, Repr

/-- The canonical pose set by internalResetCameraAndEnvironment:
target at the origin, radius 10, alpha -pi/2, beta pi/2.5. -/
def defaultCamPose : CamPose :=
  CamPose.pose ⟨0, 0, 0⟩ 10 (-(1 : ℚ)/2) (2/5)

/-- internalResetCameraAndEnvironment: reset the camera to the default
pose and the grid to height 0. -/
def internalResetCameraAndEnvironment : CamPose × ℚ :=
  (defaultCamPose, 0)

/-- Componentwise Vector3.Minimize. -/
def vmin (a b : Vec3) : Vec3 :=
  ⟨min a.x b.x, min a.y b.y, min a.z b.z⟩

/-- Componentwise Vector3.Maximize. -/
def vmax (a b : Vec3) : Vec3 :=
  ⟨max a.x b.x, max a.y b.y, max a.z b.z⟩

/-- The allModelMeshes filter of the load handler: drop the grid, the
(vacuous) instanceof-light/camera cases, and any name that starts or
ends with a double underscore. -/
def allModelMeshes (ms : List AMesh) : List AMesh :=
  ms.filter (fun m =>
    !(decide (m.name = "grid")) && !m.isHemisphericLight && !m.isArcRotateCamera &&
    !(strStartsWith m.name "__") && !(strEndsWith m.name "__"))

/-- The visible-and-enabled filter applied before framing. -/
def visibleEnabledMeshes (ms : List AMesh) : List AMesh :=
  ms.filter (fun m => m.isVisible && m.isEnabled)

/-- The min/max accumulation over world bounding boxes, starting from
(Infinity, ..., -Infinity, ...).  The accumulator is none exactly while
min.x is still Infinity (no bounding info contributed). -/
def unionBounds (ms : List AMesh) : Option (Vec3 × Vec3) :=
  ms.foldl
    (fun acc m =>
      match m.bounds with
      | none => acc
      | some (mn, mx) =>
        match acc with
        | none => some (mn, mx)
        | some (amn, amx) => some (vmin amn mn, vmax amx mx))
    none

/-- The framing branch of the .then handler: camera pose and grid
height.  With at least one visible, enabled model mesh the camera is
zoomed on those meshes and the grid is moved to min.y - 0.01; in every
degenerate branch the camera and grid are reset. -/
def framing (meshes1 : List AMesh) : CamPose × ℚ :=
  if 0 < (allModelMeshes meshes1).length then
    if 0 < (visibleEnabledMeshes (allModelMeshes meshes1)).length then
      match unionBounds (visibleEnabledMeshes (allModelMeshes meshes1)) with
      | some (mn, _) =>
        (CamPose.zoomedOn
          ((visibleEnabledMeshes (allModelMeshes meshes1)).map (fun m => m.name)),
         mn.y - 1/100)
      | none => internalResetCameraAndEnvironment
    else internalResetCameraAndEnvironment
  else internalResetCameraAndEnvironment

/- ------------------------------------------------------------------
Scene Graph Extractor (third variant)
------------------------------------------------------------------- -/

/-- The type tag assigned by buildNodeHierarchy from the instanceof
chain: Mesh, else TransformNode, else Node. -/
def typeString : NodeKind → String
  | NodeKind.mesh => "Mesh"
  | NodeKind.transformNode => "TransformNode"
  | _ => "Node"

/-- The child filter of buildNodeHierarchy: the node must belong to the
main scene, must not be the camera, the two lights or the grid, must
not be a light or camera instance, and a double-underscore-wrapped name
is only admitted when the node has children or is a Mesh. -/
def childAdmit (n : BNode) : Bool :=
  n.inScene &&
  !(decide (n.name = "camera")) &&
  !(strStartsWith n.name "light1") &&
  !(strStartsWith n.name "light2") &&
  !(decide (n.name = "grid")) &&
  !(decide (n.kind = NodeKind.hemisphericLight)) &&
  !(decide (n.kind = NodeKind.arcRotateCamera)) &&
  (!(strStartsWith n.name "__" && strEndsWith n.name "__") ||
    decide (0 < n.children.length) || decide (n.kind = NodeKind.mesh))

/-- buildNodeHierarchy: type tag, unique id, display name with the
synthesized Unnamed fallback, and the recursively filtered children. -/
def buildNodeHierarchy : BNode → ModelNode
  | .mk uid nm kind _ children =>
    let ty := typeString kind
    ModelNode.mk (toString uid)
      (if nm = "" then "Unnamed " ++ ty else nm)
      ty
      ((children.filter childAdmit).attach.map (fun c => buildNodeHierarchy c.1))
decreasing_by
  have h2 := List.mem_of_mem_filter c.2
  have h3 := List.sizeOf_lt_of_mem h2
  simp only [BNode.mk.sizeOf_spec]
  omega

/-- The root-level pre-filter applied to container.rootNodes. -/
def rootAdmitPre (n : BNode) : Bool :=
  !(decide (n.name = "grid")) &&
  !(decide (n.name = "camera")) &&
  !(strStartsWith n.name "light1") &&
  !(strStartsWith n.name "light2") &&
  !(decide (n.kind = NodeKind.hemisphericLight)) &&
  !(decide (n.kind = NodeKind.arcRotateCamera)) &&
  (!(strStartsWith n.name "__" && strEndsWith n.name "__") ||
    decide (0 < n.children.length) || decide (n.kind = NodeKind.mesh))

/-- The post-build prune applied only at root level: a built node is
removed when its name is double-underscore wrapped, its filtered
children list is empty and its type is not Mesh. -/
def rootPrune (m : ModelNode) : Bool :=
  strStartsWith m.name "__" && strEndsWith m.name "__" &&
  decide (m.children.length = 0) && !(decide (m.nodeType = "Mesh"))

/-- hierarchyRoots: pre-filter the root nodes, build, then prune. -/
def hierarchyRoots (roots : List BNode) : List ModelNode :=
  ((roots.filter rootAdmitPre).map buildNodeHierarchy).filter
    (fun m => !(rootPrune m))

/-- The effective root-level admission of a node: it survives both the
pre-filter and the post-build prune. -/
def rootAdmitEff (n : BNode) : Bool :=
  rootAdmitPre n && !(rootPrune (buildNodeHierarchy n))

/- ------------------------------------------------------------------
Animation Synchronizer: load-time initialization (third variant)
------------------------------------------------------------------- -/

/-- One step of the duration scan: if the group's first animation
channel declares a positive frame rate it becomes the detected rate,
otherwise the previously detected rate is kept; the group's duration is
its last frame divided by the detected rate. -/
def nextRate (r : ℚ) (g : AGroup) : ℚ :=
  match g.firstAnimFrameRate with
  | some x => if 0 < x then x else r
  | none => r

/-- The loop body of the animation-group initialization: the state is
(detectedFrameRate, maxDuration). -/
def animStep (st : ℚ × ℚ) (g : AGroup) : ℚ × ℚ :=
  (nextRate st.1 g,
   if st.2 < g.toFrame / nextRate st.1 g then g.toFrame / nextRate st.1 g
   else st.2)

/-- The whole initialization loop, started at detectedFrameRate = 60
and maxDuration = 0. -/
def animInit (gs : List AGroup) : ℚ × ℚ :=
  gs.foldl animStep (60, 0)

/-- The stop/reset/goToFrame(0) applied to each group on load. -/
def resetGroup (g : AGroup) : AGroup :=
  { g with isPlaying := false
           animatables := g.animatables.map (fun a => { a with masterFrame := 0 }) }

/-- Modelled from the spec: the per-group duration exactly as the claim
words it, last frame divided by the rate declared by that same group's
first animation channel with 60 as the fallback when the group declares
none. -/
def specClaimDuration (g : AGroup) : ℚ :=
  g.toFrame /
    (match g.firstAnimFrameRate with
     | some x => if 0 < x then x else 60
     | none => 60)

/-- Modelled from the amended claim: per-group durations where the
fallback rate is the most recently detected positive rate from an
earlier group, 60 initially. -/
def specGroupDurations (r : ℚ) : List AGroup → List ℚ
  | [] => []
  | g :: gs => (g.toFrame / nextRate r g) :: specGroupDurations (nextRate r g) gs

/- ------------------------------------------------------------------
The .then handler of the load effect (third variant)
------------------------------------------------------------------- -/

/-- Callback events emitted by the load path. -/
inductive VEvent where
  | modelLoaded (success : Bool)
  | hierarchyReady (nodes : List ModelNode)
  | animationsAvailable (available : Bool) (duration : ℚ)

/-- Forcing backFaceCulling = false on a material (the
container.materials.forEach at the head of the handler). -/
def setBackFaceCullingFalse (m : Mat) : Mat :=
  { m with backFaceCulling := false }

def slotSetBFC : MatSlot → MatSlot
  | .single m => .single (setBackFaceCullingFalse m)
  | .multi subs => .multi (subs.map (Option.map setBackFaceCullingFalse))

def meshSetBFC (mesh : AMesh) : AMesh :=
  { mesh with material := mesh.material.map slotSetBFC }

/-- The observable result of the .then handler. -/
structure ThenResult where
  camera : CamPose
  gridY : ℚ
  styledMeshes : List AMesh
  hierarchy : List ModelNode
  events : List VEvent
  animGroups : Option (List AGroup)
  frameRate : ℚ
  totalDuration : ℚ

/-- The .then handler of the load effect: force back-face culling off,
frame the camera and grid, apply the current rendering style, emit
onModelLoaded(true), emit the extracted hierarchy, then initialize the
animation state and emit onAnimationsAvailable.  prevFrameRate is the
value of frameRateRef before the load (it is only overwritten when the
container has animation groups). -/
def thenHandler (mode : RenderingMode) (ext : Option String)
    (prevFrameRate : ℚ) (c : Container) : ThenResult :=
  { camera := (framing (c.meshes.map meshSetBFC)).1
    gridY := (framing (c.meshes.map meshSetBFC)).2
    styledMeshes :=
      (applyRenderingModeStyle mode ext
        { c with meshes := c.meshes.map meshSetBFC }).meshes
    hierarchy := hierarchyRoots c.rootNodes
    events := [VEvent.modelLoaded true,
               VEvent.hierarchyReady (hierarchyRoots c.rootNodes)] ++
      (if 0 < c.animationGroups.length then
        [VEvent.animationsAvailable true (animInit c.animationGroups).2]
       else [VEvent.animationsAvailable false 0])
    animGroups :=
      if 0 < c.animationGroups.length then
        some (c.animationGroups.map resetGroup)
      else none
    frameRate :=
      if 0 < c.animationGroups.length then (animInit c.animationGroups).1
      else prevFrameRate
    totalDuration :=
      if 0 < c.animationGroups.length then (animInit c.animationGroups).2
      else 0 }

/- ------------------------------------------------------------------
Animation Synchronizer: per-frame progress tick (third variant)
------------------------------------------------------------------- -/

/-- The state read and written by the onBeforeRenderObservable tick. -/
structure TickState where
  isPlayingInternal : Bool
  groups : List AGroup
  totalDuration : ℚ
  frameRate : ℚ

/-- Events emitted by the tick. -/
inductive TickEvent where
  | progress (percent currentTime totalDuration : ℚ)
  | stateChange (isPlaying : Bool)
deriving DecidableEq, Repr

def isStateChange : TickEvent → Bool
  | .stateChange _ => true
  | _ => false

/-- The current frame read by the tick: the masterFrame of the first
animatable whose animationLoop is not null, else of the first
animatable, else 0. -/
def currentFrameOf (g : AGroup) : ℚ :=
  match g.animatables.find? (fun a => a.animationLoopNonNull) with
  | some a => a.masterFrame
  | none =>
    match g.animatables with
    | a :: _ => a.masterFrame
    | [] => 0

/-- The elapsed seconds computed by the tick: currentFrame divided by
the frame rate, where the JS expression frameRateRef.current || 60
falls back to 60 when the stored rate is zero. -/
def tickTime (s : TickState) (g : AGroup) : ℚ :=
  currentFrameOf g / (if s.frameRate = 0 then 60 else s.frameRate)

/-- The progress percentage computed by the tick, clamped by
Math.min(100, Math.max(0, progress)). -/
def tickProgress (s : TickState) (g : AGroup) : ℚ :=
  min 100 (max 0 (tickTime s g / s.totalDuration * 100))

/-- One execution of the onBeforeRenderObservable callback.  While the
internal playing flag is set, groups exist and the total duration is
positive, the first group's frame position is converted to seconds and
to a clamped 0-100 percentage and emitted; a playing non-looping group
whose frame has reached group.to is stopped and a stopped state change
is emitted. -/
def tick (s : TickState) : TickState × List TickEvent :=
  if s.isPlayingInternal = true ∧ 0 < s.groups.length ∧ 0 < s.totalDuration then
    match s.groups with
    | [] => (s, [])
    | g :: rest =>
      if g.isPlaying = true then
        if g.loopAnimation = false ∧ g.toFrame ≤ currentFrameOf g then
          ({ s with isPlayingInternal := false
                    groups := { g with isPlaying := false } :: rest },
           [TickEvent.progress (tickProgress s g) (tickTime s g) s.totalDuration,
            TickEvent.stateChange false])
        else
          (s, [TickEvent.progress (tickProgress s g) (tickTime s g) s.totalDuration])
      else (s, [])
  else (s, [])

/- ------------------------------------------------------------------
Asset Load/Swap Controller: request/resolve interleaving model
------------------------------------------------------------------- -/

/-- Callback events of the load lifecycle, tagged with the request id
they were emitted for. -/
inductive LEvent where
  | resetNotifications
  | modelLoadedTrue (rid : Nat)
  | hierarchyReadyFor (rid : Nat)
  | animationsAvailableFor (rid : Nat)
deriving DecidableEq, Repr

/-- The session state of the load effect: the mutable container ref,
the containers currently attached to the scene, the disposed
containers, the identifier of the most recent request, the in-flight
requests and the emitted events.  Containers are identified by the id
of the request that produced them. -/
structure LState where
  refC : Option Nat
  attached : List Nat
  disposed : List Nat
  current : Option Nat
  pending : List Nat
  events : List LEvent
deriving DecidableEq, Repr

def initLState : LState :=
  { refC := none, attached := [], disposed := [], current := none,
    pending := [], events := [] }

/-- Issuing a new load request (the synchronous part of the load effect
for a non-null modelUrl): reset the derived state and notify, remove
and dispose the previously referenced container, then start the
asynchronous load.  No token is recorded for later comparison. -/
def issueRequest (rid : Nat) (s : LState) : LState :=
  let s1 := { s with events := s.events ++ [LEvent.resetNotifications] }
  let s2 :=
    match s1.refC with
    | some c =>
      { s1 with refC := none
                attached := s1.attached.filter (fun x => !(decide (x = c)))
                disposed := s1.disposed ++ [c] }
    | none => s1
  { s2 with current := some rid, pending := s2.pending ++ [rid] }

/-- The loader promise for request rid resolving successfully: the
.then handler runs unconditionally, overwriting the container ref,
adding the container to the scene and emitting the success callbacks.
There is no comparison against the currently authoritative request. -/
def resolveLoad (rid : Nat) (s : LState) : LState :=
  if rid ∈ s.pending then
    { s with refC := some rid
             attached := s.attached ++ [rid]
             pending := s.pending.filter (fun x => !(decide (x = rid)))
             events := s.events ++
               [LEvent.modelLoadedTrue rid, LEvent.hierarchyReadyFor rid,
                LEvent.animationsAvailableFor rid] }
  else s

/- ------------------------------------------------------------------
Visibility Set / solo toggle (page component)
------------------------------------------------------------------- -/

/-- JS Set.add on the insertion-ordered element list. -/
def jsSetAdd (l : List String) (x : String) : List String :=
  if x ∈ l then l else l ++ [x]

/-- JS Set.delete. -/
def jsSetDelete (l : List String) (x : String) : List String :=
  l.filter (fun y => !(decide (y = x)))

/-- getAllMeshIdsFromHierarchy: collect, in document order, the ids of
every node whose type is Mesh, InstancedMesh or AbstractMesh. -/
def getAllMeshIdsFromHierarchy : List ModelNode → List String
  | [] => []
  | ModelNode.mk i _ ty ch :: rest =>
    (if ty = "Mesh" ∨ ty = "InstancedMesh" ∨ ty = "AbstractMesh" then [i] else []) ++
    getAllMeshIdsFromHierarchy ch ++ getAllMeshIdsFromHierarchy rest

/-- The hidden-set construction of the solo branch: every id in the
hierarchy other than the toggled mesh. -/
def buildSoloHidden (allIds : List String) (meshId : String) : List String :=
  allIds.foldl (fun acc id => if id ≠ meshId then jsSetAdd acc id else acc) []

/-- The visibility state owned by the page: hidden mesh ids and the
solo flag. -/
structure VisState where
  hiddenMeshIds : List String
  isSoloActive : Bool
deriving DecidableEq, Repr

/-- handleToggleMeshVisibility: with ctrl pressed, leaving solo clears
the hidden set, entering solo hides everything except the toggled mesh;
without ctrl the mesh's membership in the hidden set is toggled and
solo is cleared. -/
def handleToggleMeshVisibility (modelHierarchy : List ModelNode)
    (meshId : String) (ctrlPressed : Bool) (s : VisState) : VisState :=
  if ctrlPressed then
    if s.isSoloActive then ⟨[], false⟩
    else ⟨buildSoloHidden (getAllMeshIdsFromHierarchy modelHierarchy) meshId, true⟩
  else
    ⟨if meshId ∈ s.hiddenMeshIds then jsSetDelete s.hiddenMeshIds meshId
      else jsSetAdd s.hiddenMeshIds meshId, false⟩

/- ------------------------------------------------------------------
Concrete inputs used by witnesses and counterexamples
------------------------------------------------------------------- -/

/-- A standard material that was loaded with lighting disabled. -/
def c3Mat : Mat :=
  { cls := MatClass.standard, wireframe := false, unlit := false,
    disableLighting := true, alpha := 1, transparencyNonOpaque := false,
    backFaceCulling := true }

def c3Mesh : AMesh :=
  { name := "m1", isVisible := true, isEnabled := true,
    isHemisphericLight := false, isArcRotateCamera := false,
    bounds := none, material := some (MatSlot.single c3Mat) }

def c3Container : Container :=
  { meshes := [c3Mesh], animationGroups := [], rootNodes := [] }

/-- Observer for the counterexample: the disableLighting flag of the
first mesh's single material. -/
def firstMatDisableLighting (c : Container) : Option Bool :=
  match c.meshes with
  | mesh :: _ =>
    match mesh.material with
    | some (MatSlot.single m) => some m.disableLighting
    | _ => none
  | [] => none

def c9Mesh : AMesh :=
  { name := "obj1", isVisible := true, isEnabled := true,
    isHemisphericLight := false, isArcRotateCamera := false,
    bounds := none, material := some (MatSlot.single c3Mat) }

def c9Container : Container :=
  { meshes := [c9Mesh], animationGroups := [], rootNodes := [] }

/-- A playing, non-looping group whose frame has reached its last
frame. -/
def c7Group : AGroup :=
  { toFrame := 10, firstAnimFrameRate := some 30, loopAnimation := false,
    isPlaying := true, animatables := [{ masterFrame := 10, animationLoopNonNull := true }] }

def c7State : TickState :=
  { isPlayingInternal := true, groups := [c7Group], totalDuration := 1,
    frameRate := 30 }

/-- A state in which the tick emits a progress event. -/
def c10Group : AGroup :=
  { toFrame := 100, firstAnimFrameRate := some 60, loopAnimation := true,
    isPlaying := true, animatables := [{ masterFrame := 0, animationLoopNonNull := true }] }

def c10State : TickState :=
  { isPlayingInternal := true, groups := [c10Group], totalDuration := 1,
    frameRate := 60 }

def c4Container : Container :=
  { meshes := [], animationGroups := [], rootNodes := [] }

/-- A visible, enabled unit cube whose bounding box bottom is at Y = 0. -/
def c8Mesh : AMesh :=
  { name := "cube", isVisible := true, isEnabled := true,
    isHemisphericLight := false, isArcRotateCamera := false,
    bounds := some (⟨0, 0, 0⟩, ⟨1, 1, 1⟩), material := none }

def c8Container : Container :=
  { meshes := [c8Mesh], animationGroups := [], rootNodes := [] }

/-- A mesh whose bounding box bottom sits at Y = 2. -/
def c8WMesh : AMesh :=
  { name := "part", isVisible := true, isEnabled := true,
    isHemisphericLight := false, isArcRotateCamera := false,
    bounds := some (⟨-1, 2, 3⟩, ⟨4, 5, 6⟩), material := none }

def c8WContainer : Container :=
  { meshes := [c8WMesh], animationGroups := [], rootNodes := [] }

/-- A group declaring 30 fps with last frame 30 (duration 1 second). -/
def c5Group1 : AGroup :=
  { toFrame := 30, firstAnimFrameRate := some 30, loopAnimation := true,
    isPlaying := false, animatables := [] }

/-- A group declaring no frame rate with last frame 60: the claim says
its duration is 60/60 = 1, the code computes 60/30 = 2 because the
previously detected rate leaks into it. -/
def c5Group2 : AGroup :=
  { toFrame := 60, firstAnimFrameRate := none, loopAnimation := true,
    isPlaying := false, animatables := [] }

def c5Container : Container :=
  { meshes := [], animationGroups := [c5Group1, c5Group2], rootNodes := [] }

/-- A single group at 24 fps with last frame 48. -/
def c5WGroup : AGroup :=
  { toFrame := 48, firstAnimFrameRate := some 24, loopAnimation := true,
    isPlaying := false, animatables := [] }

def c5WContainer : Container :=
  { meshes := [], animationGroups := [c5WGroup], rootNodes := [] }

/-- A node that is not part of the main scene, with an ordinary name:
admitted at root level, excluded as a child. -/
def c6Node : BNode :=
  BNode.mk 7 "a" NodeKind.transformNode false []

/-- An in-scene mesh node with an ordinary name. -/
def c6WNode : BNode :=
  BNode.mk 3 "torso" NodeKind.mesh true []

/-- Three meshes a, b, m in a flat hierarchy. -/
def c2Hierarchy : List ModelNode :=
  [ModelNode.mk "a" "A" "Mesh" [], ModelNode.mk "b" "B" "Mesh" [],
   ModelNode.mk "m" "M" "Mesh" []]

/-- Request 1 is issued, request 2 supersedes it while in flight, then
request 1's loader promise resolves. -/
def c1Trace : LState :=
  resolveLoad 1 (issueRequest 2 (issueRequest 1 initLState))

/- ------------------------------------------------------------------
Theorems: basic unfolding lemmas
------------------------------------------------------------------- -/

/-- Unfolding equation for buildNodeHierarchy with the attach helper
eliminated: the children are the filtered children, mapped. -/
theorem buildNodeHierarchy_mk (uid : Nat) (nm : String) (kind : NodeKind)
    (sc : Bool) (children : List BNode) :
    buildNodeHierarchy (BNode.mk uid nm kind sc children) =
      ModelNode.mk (toString uid)
        (if nm = "" then "Unnamed " ++ typeString kind else nm)
        (typeString kind)
        ((children.filter childAdmit).map buildNodeHierarchy) := by
  simp only [buildNodeHierarchy]
  simp [List.attach_map_coe]

/- ------------------------------------------------------------------
Theorems: Material Style Applier (claims C3 and C9)
------------------------------------------------------------------- -/

theorem processSingleMaterial_shaded_absorb (mode : RenderingMode) (m : Mat) :
    processSingleMaterial RenderingMode.shaded (processSingleMaterial mode m) =
      processSingleMaterial RenderingMode.shaded m := by
  cases m with
  | mk cls wf ul dl al tr bfc =>
    cases cls <;> cases mode <;> cases tr <;>
      simp [processSingleMaterial, resetAlpha]

theorem applyToSlot_shaded_absorb (mode : RenderingMode) (s : MatSlot) :
    applyToSlot RenderingMode.shaded (applyToSlot mode s) =
      applyToSlot RenderingMode.shaded s := by
  cases s with
  | single m => simp [applyToSlot, processSingleMaterial_shaded_absorb]
  | multi subs =>
    simp only [applyToSlot, List.map_map]
    have h : (Option.map (processSingleMaterial RenderingMode.shaded) ∘
              Option.map (processSingleMaterial mode)) =
             Option.map (processSingleMaterial RenderingMode.shaded) := by
      funext o
      cases o <;> simp [processSingleMaterial_shaded_absorb]
    rw [h]

theorem applyToMesh_shaded_absorb (mode : RenderingMode) (mesh : AMesh) :
    applyToMesh RenderingMode.shaded (applyToMesh mode mesh) =
      applyToMesh RenderingMode.shaded mesh := by
  by_cases hg : mesh.name = "grid"
  · simp [applyToMesh, hg]
  · cases hm : mesh.material with
    | none => simp [applyToMesh, hg, hm]
    | some slot => simp [applyToMesh, hg, hm, applyToSlot_shaded_absorb]

theorem map_applyToMesh_shaded_absorb (mode : RenderingMode) (ms : List AMesh) :
    (ms.map (applyToMesh mode)).map (applyToMesh RenderingMode.shaded) =
      ms.map (applyToMesh RenderingMode.shaded) := by
  simp only [List.map_map]
  congr 1
  funext x
  exact applyToMesh_shaded_absorb mode x

/-- C3 (counterexample).  The claim that applying shaded, wireframe,
shaded restores every material flag to the value it had before the
first application is false: a loaded standard material whose lighting
was disabled ends with disableLighting = false. -/
theorem c3_counterexample :
    firstMatDisableLighting c3Container = some true ∧
    firstMatDisableLighting
      (applyRenderingModeStyle RenderingMode.shaded none
        (applyRenderingModeStyle RenderingMode.wireframe none
          (applyRenderingModeStyle RenderingMode.shaded none c3Container))) =
      some false := by
  constructor
  · rfl
  · rfl

/-- Unfolding lemma: the shaded mode never hits the OBJ early return. -/
theorem applyRenderingModeStyle_shaded (ext : Option String) (c : Container) :
    applyRenderingModeStyle RenderingMode.shaded ext c =
      { c with meshes := c.meshes.map (applyToMesh RenderingMode.shaded) } := by
  unfold applyRenderingModeStyle
  rw [if_neg]
  simp

/-- Unfolding lemma: the wireframe mode is the OBJ guard followed by
the per-mesh map. -/
theorem applyRenderingModeStyle_wireframe (ext : Option String) (c : Container) :
    applyRenderingModeStyle RenderingMode.wireframe ext c =
      if ext = some ".obj" then c
      else { c with meshes := c.meshes.map (applyToMesh RenderingMode.wireframe) } := by
  unfold applyRenderingModeStyle
  by_cases h : ext = some ".obj"
  · rw [if_pos ⟨h, Or.inr rfl⟩, if_pos h]
  · rw [if_neg, if_neg h]
    intro hc
    exact h hc.1

/-- C3 (amended).  Applying shaded, then wireframe, then shaded again
yields exactly the container state of a single shaded application, for
every extension and container: the applier has no memory of the
previous style, but it normalizes flags to the shaded baseline rather
than restoring pre-sequence values. -/
theorem c3_amended_theorem (ext : Option String) (c : Container) :
    applyRenderingModeStyle RenderingMode.shaded ext
      (applyRenderingModeStyle RenderingMode.wireframe ext
        (applyRenderingModeStyle RenderingMode.shaded ext c)) =
    applyRenderingModeStyle RenderingMode.shaded ext c := by
  simp only [applyRenderingModeStyle_shaded, applyRenderingModeStyle_wireframe]
  by_cases h : ext = some ".obj"
  · rw [if_pos h]
    simp [map_applyToMesh_shaded_absorb RenderingMode.shaded]
  · rw [if_neg h]
    simp only [List.map_map, Container.mk.injEq, and_true, true_and]
    refine List.map_congr_left ?_
    intro a _
    show applyToMesh RenderingMode.shaded
        (applyToMesh RenderingMode.wireframe (applyToMesh RenderingMode.shaded a)) =
      applyToMesh RenderingMode.shaded a
    rw [applyToMesh_shaded_absorb, applyToMesh_shaded_absorb]

/-- C9.  For an OBJ container, requesting the non-shaded or wireframe
style returns without touching anything: the container is unchanged. -/
theorem c9_theorem (mode : RenderingMode) (c : Container)
    (h : mode = RenderingMode.nonShaded ∨ mode = RenderingMode.wireframe) :
    applyRenderingModeStyle mode (some ".obj") c = c := by
  unfold applyRenderingModeStyle
  rw [if_pos ⟨rfl, h⟩]

/-- C9 witness at a concrete container and the non-shaded mode. -/
theorem c9_witness :
    applyRenderingModeStyle RenderingMode.nonShaded (some ".obj") c9Container =
      c9Container :=
  c9_theorem RenderingMode.nonShaded c9Container (Or.inl rfl)

/- ------------------------------------------------------------------
Theorems: per-frame progress tick (claims C7 and C10)
------------------------------------------------------------------- -/

theorem clamp_bounds (x : ℚ) :
    0 ≤ min 100 (max 0 x) ∧ min 100 (max 0 x) ≤ 100 :=
  ⟨le_min (by norm_num) (le_max_left 0 x), min_le_left _ _⟩

/-- C10.  Every progress percentage emitted by the per-frame tick lies
in the closed interval from 0 to 100. -/
theorem c10_theorem (s : TickState) (p t tot : ℚ)
    (hd : 0 < s.totalDuration)
    (he : TickEvent.progress p t tot ∈ (tick s).2) :
    0 ≤ p ∧ p ≤ 100 := by
  unfold tick at he
  split at he
  · split at he
    · simp at he
    · rename_i g rest heq
      split at he
      · split at he
        · simp only [List.mem_cons, List.not_mem_nil, or_false] at he
          rcases he with h | h
          · rw [show p = tickProgress s g
                from ((TickEvent.progress.injEq _ _ _ _ _ _).mp h).1]
            unfold tickProgress
            exact clamp_bounds _
          · exact absurd h (by simp)
        · simp only [List.mem_cons, List.not_mem_nil, or_false] at he
          rw [show p = tickProgress s g
              from ((TickEvent.progress.injEq _ _ _ _ _ _).mp he).1]
          unfold tickProgress
          exact clamp_bounds _
      · simp at he
  · simp at he

/-- C7.  If the first group is playing, non-looping and its frame has
reached its last frame while the internal playing flag is set and the
total duration is positive, the tick emits exactly one state-change
event, it is the stopped transition, the internal flag is cleared, the
following tick emits nothing at all, and (last conjunct) the tick never
turns the playing flag on: stopping is its only autonomous
transition. -/
theorem c7_theorem (s : TickState) (g : AGroup) (rest : List AGroup)
    (h1 : s.groups = g :: rest) (h2 : s.isPlayingInternal = true)
    (h3 : 0 < s.totalDuration) (h4 : g.isPlaying = true)
    (h5 : g.loopAnimation = false) (h6 : g.toFrame ≤ currentFrameOf g) :
    ((tick s).2.filter isStateChange = [TickEvent.stateChange false]) ∧
    (tick s).1.isPlayingInternal = false ∧
    (tick (tick s).1).2 = [] ∧
    (∀ u : TickState, (tick u).1.isPlayingInternal = u.isPlayingInternal ∨
      ((tick u).1.isPlayingInternal = false ∧
        TickEvent.stateChange false ∈ (tick u).2)) := by
  have hg : tick s =
      ({ s with isPlayingInternal := false
                groups := { g with isPlaying := false } :: rest },
       [TickEvent.progress (tickProgress s g) (tickTime s g) s.totalDuration,
        TickEvent.stateChange false]) := by
    unfold tick
    rw [h1]
    rw [if_pos ⟨h2, by simp, h3⟩]
    simp only []
    rw [if_pos h4, if_pos ⟨h5, h6⟩]
  refine ⟨?_, ?_, ?_, ?_⟩
  · rw [hg]
    simp [isStateChange]
  · rw [hg]
  · rw [hg]
    unfold tick
    simp
  · intro u
    unfold tick
    split
    · split
      · exact Or.inl rfl
      · split
        · split
          · exact Or.inr ⟨rfl, by simp⟩
          · exact Or.inl rfl
        · exact Or.inl rfl
    · exact Or.inl rfl

/-- C7 witness: the theorem applied at a concrete finished group. -/
theorem c7_witness :
    ((tick c7State).2.filter isStateChange = [TickEvent.stateChange false]) ∧
    (tick c7State).1.isPlayingInternal = false ∧
    (tick (tick c7State).1).2 = [] ∧
    (∀ u : TickState, (tick u).1.isPlayingInternal = u.isPlayingInternal ∨
      ((tick u).1.isPlayingInternal = false ∧
        TickEvent.stateChange false ∈ (tick u).2)) :=
  c7_theorem c7State c7Group [] rfl rfl (by norm_num [c7State])
    rfl rfl (by norm_num [c7Group, currentFrameOf, List.find?])

/-- C10 witness: the clamp bound applied at a concretely emitted
progress event. -/
theorem c10_witness :
    0 ≤ tickProgress c10State c10Group ∧ tickProgress c10State c10Group ≤ 100 :=
  c10_theorem c10State (tickProgress c10State c10Group)
    (tickTime c10State c10Group) (c10State.totalDuration)
    (by norm_num [c10State])
    (by
      unfold tick
      rw [show c10State.groups = [c10Group] from rfl]
      rw [if_pos ⟨rfl, by simp, by norm_num [c10State]⟩]
      simp only []
      rw [if_pos (show c10Group.isPlaying = true from rfl)]
      rw [if_neg]
      · simp
      · intro hc
        exact absurd hc.1 (by norm_num [c10Group]))

/- ------------------------------------------------------------------
Theorems: Camera Framer / load success path (claims C4 and C8)
------------------------------------------------------------------- -/

/-- Degenerate framing: with no admissible meshes or none of them
visible and enabled, the framing result is the canonical reset. -/
theorem framing_degenerate (meshes1 : List AMesh)
    (h : meshes1 = [] ∨ ∀ m ∈ meshes1, ¬(m.isVisible = true ∧ m.isEnabled = true)) :
    framing meshes1 = (defaultCamPose, 0) := by
  rcases h with h | h
  · rw [h]
    rfl
  · unfold framing
    by_cases hamm : 0 < (allModelMeshes meshes1).length
    · rw [if_pos hamm]
      have hvis : visibleEnabledMeshes (allModelMeshes meshes1) = [] := by
        unfold visibleEnabledMeshes
        rw [List.filter_eq_nil_iff]
        intro a ha
        have ha2 : a ∈ meshes1 := List.mem_of_mem_filter ha
        intro hcon
        rcases Bool.and_eq_true_iff.mp hcon with ⟨hv, hen⟩
        exact h a ha2 ⟨hv, hen⟩
      rw [hvis]
      simp [internalResetCameraAndEnvironment]
    · rw [if_neg hamm]
      rfl

/-- meshSetBFC only rewrites the material slot; the fields consulted by
the framing filters are untouched. -/
theorem meshSetBFC_fields (m : AMesh) :
    (meshSetBFC m).isVisible = m.isVisible ∧
    (meshSetBFC m).isEnabled = m.isEnabled :=
  ⟨rfl, rfl⟩

/-- C4.  A load whose container has no meshes, or only invisible or
disabled meshes, completes as a success: onModelLoaded(true) is
emitted, the camera ends at the canonical default pose and the grid at
height zero. -/
theorem c4_theorem (mode : RenderingMode) (ext : Option String) (pfr : ℚ)
    (c : Container)
    (h : c.meshes = [] ∨ ∀ m ∈ c.meshes, ¬(m.isVisible = true ∧ m.isEnabled = true)) :
    (thenHandler mode ext pfr c).camera = defaultCamPose ∧
    (thenHandler mode ext pfr c).gridY = 0 ∧
    VEvent.modelLoaded true ∈ (thenHandler mode ext pfr c).events := by
  have hfr : framing (c.meshes.map meshSetBFC) = (defaultCamPose, 0) := by
    apply framing_degenerate
    rcases h with h | h
    · left
      rw [h]
      rfl
    · right
      intro a ha
      rcases List.mem_map.mp ha with ⟨b, hb, rfl⟩
      intro hcon
      exact h b hb ⟨((meshSetBFC_fields b).1).symm.trans hcon.1,
        ((meshSetBFC_fields b).2).symm.trans hcon.2⟩
  refine ⟨?_, ?_, ?_⟩
  · show (framing (c.meshes.map meshSetBFC)).1 = defaultCamPose
    rw [hfr]
  · show (framing (c.meshes.map meshSetBFC)).2 = 0
    rw [hfr]
  · simp [thenHandler]

/-- C4 witness at the empty container. -/
theorem c4_witness :
    (thenHandler RenderingMode.shaded none 60 c4Container).camera = defaultCamPose ∧
    (thenHandler RenderingMode.shaded none 60 c4Container).gridY = 0 ∧
    VEvent.modelLoaded true ∈ (thenHandler RenderingMode.shaded none 60 c4Container).events :=
  c4_theorem RenderingMode.shaded none 60 c4Container (Or.inl rfl)

/-- C8 (amended).  Whenever the union bounding box of the filtered
visible, enabled meshes exists, the grid is placed at its minimum Y
minus 0.01, not at the minimum Y itself. -/
theorem c8_amended_theorem (mode : RenderingMode) (ext : Option String)
    (pfr : ℚ) (c : Container) (mn mx : Vec3)
    (h : unionBounds (visibleEnabledMeshes (allModelMeshes (c.meshes.map meshSetBFC))) =
      some (mn, mx)) :
    (thenHandler mode ext pfr c).gridY = mn.y - 1/100 := by
  have hvisne : visibleEnabledMeshes (allModelMeshes (c.meshes.map meshSetBFC)) ≠ [] := by
    intro hv
    rw [hv] at h
    exact Option.noConfusion h
  have hvis : 0 < (visibleEnabledMeshes (allModelMeshes (c.meshes.map meshSetBFC))).length :=
    List.length_pos.mpr hvisne
  have hamm : 0 < (allModelMeshes (c.meshes.map meshSetBFC)).length :=
    lt_of_lt_of_le hvis (List.length_filter_le _ _)
  show (framing (c.meshes.map meshSetBFC)).2 = mn.y - 1/100
  unfold framing
  rw [if_pos hamm, if_pos hvis]
  simp only [h]

/-- C8 (counterexample).  For the unit cube resting on Y = 0 the grid
is placed at -0.01, not at the bounding-box minimum Y = 0 as the claim
states. -/
theorem c8_counterexample :
    unionBounds (visibleEnabledMeshes (allModelMeshes (c8Container.meshes.map meshSetBFC))) =
      some (⟨0, 0, 0⟩, ⟨1, 1, 1⟩) ∧
    (thenHandler RenderingMode.shaded none 60 c8Container).gridY = 0 - 1/100 ∧
    (0 - 1/100 : ℚ) ≠ (⟨0, 0, 0⟩ : Vec3).y := by
  refine ⟨rfl, rfl, ?_⟩
  show (0 - 1/100 : ℚ) ≠ 0
  norm_num

/-- C8 witness: the amended placement applied at a concrete mesh. -/
theorem c8_witness :
    (thenHandler RenderingMode.shaded none 60 c8WContainer).gridY =
      (⟨-1, 2, 3⟩ : Vec3).y - 1/100 :=
  c8_amended_theorem RenderingMode.shaded none 60 c8WContainer
    ⟨-1, 2, 3⟩ ⟨4, 5, 6⟩ rfl

/- ------------------------------------------------------------------
Theorems: animation duration initialization (claim C5)
------------------------------------------------------------------- -/

theorem ite_lt_eq_max (a d : ℚ) : (if a < d then d else a) = max a d := by
  rcases le_or_lt d a with h | h
  · rw [if_neg (not_lt.mpr h), max_eq_left h]
  · rw [if_pos h, max_eq_right (le_of_lt h)]

/-- The initialization fold computes the running maximum of the
running-fallback durations. -/
theorem animInit_foldl (gs : List AGroup) : ∀ (r m : ℚ),
    (gs.foldl animStep (r, m)).2 = (specGroupDurations r gs).foldl max m := by
  induction gs with
  | nil =>
    intro r m
    rfl
  | cons g gs ih =>
    intro r m
    show ((gs.foldl animStep (animStep (r, m) g))).2 = _
    rw [specGroupDurations]
    have hstep : animStep (r, m) g =
        (nextRate r g, max m (g.toFrame / nextRate r g)) := by
      unfold animStep
      rw [ite_lt_eq_max]
    rw [hstep, ih (nextRate r g) (max m (g.toFrame / nextRate r g))]
    rfl

/-- C5 (amended).  The reported total duration is the maximum of the
per-group durations where each group uses its own declared positive
frame rate, and an undeclared rate falls back to the most recently
detected rate of an earlier group, 60 initially; the
onAnimationsAvailable(true, total) notification carries it. -/
theorem c5_amended_theorem (mode : RenderingMode) (ext : Option String)
    (pfr : ℚ) (c : Container) (h : c.animationGroups ≠ []) :
    (thenHandler mode ext pfr c).totalDuration =
      (specGroupDurations 60 c.animationGroups).foldl max 0 ∧
    VEvent.animationsAvailable true
      ((specGroupDurations 60 c.animationGroups).foldl max 0) ∈
      (thenHandler mode ext pfr c).events := by
  have hlen : 0 < c.animationGroups.length := List.length_pos.mpr h
  have htot : (animInit c.animationGroups).2 =
      (specGroupDurations 60 c.animationGroups).foldl max 0 :=
    animInit_foldl c.animationGroups 60 0
  constructor
  · show (if 0 < c.animationGroups.length then (animInit c.animationGroups).2 else 0) = _
    rw [if_pos hlen, htot]
  · have hmem : VEvent.animationsAvailable true ((animInit c.animationGroups).2) ∈
        (thenHandler mode ext pfr c).events := by
      simp [thenHandler, hlen]
    rwa [htot] at hmem

/-- C5 (counterexample).  With the two groups above the claim's
per-group durations with fallback 60 give total 1, while the code
reports total 2 and notifies onAnimationsAvailable(true, 2). -/
theorem c5_counterexample :
    (c5Container.animationGroups.map specClaimDuration).foldl max 0 = 1 ∧
    (thenHandler RenderingMode.shaded none 60 c5Container).totalDuration = 2 ∧
    VEvent.animationsAvailable true 2 ∈
      (thenHandler RenderingMode.shaded none 60 c5Container).events ∧
    (2 : ℚ) ≠ 1 := by
  have e1 : specClaimDuration c5Group1 = 1 := by
    norm_num [specClaimDuration, c5Group1]
  have e2 : specClaimDuration c5Group2 = 1 := by
    norm_num [specClaimDuration, c5Group2]
  have e3 : (animInit c5Container.animationGroups).2 = 2 := by
    show (animStep (animStep (60, 0) c5Group1) c5Group2).2 = 2
    norm_num [animStep, nextRate, c5Group1, c5Group2]
  refine ⟨?_, ?_, ?_, by norm_num⟩
  · show max (max 0 (specClaimDuration c5Group1)) (specClaimDuration c5Group2) = 1
    rw [e1, e2]
    norm_num
  · show (if 0 < c5Container.animationGroups.length then
        (animInit c5Container.animationGroups).2 else 0) = 2
    rw [if_pos (by norm_num [c5Container])]
    exact e3
  · have hmem : VEvent.animationsAvailable true ((animInit c5Container.animationGroups).2) ∈
        (thenHandler RenderingMode.shaded none 60 c5Container).events := by
      simp [thenHandler, c5Container]
    rwa [e3] at hmem

/-- C5 witness: the amended total-duration law applied at a concrete
single-group container. -/
theorem c5_witness :
    (thenHandler RenderingMode.shaded none 60 c5WContainer).totalDuration =
      (specGroupDurations 60 c5WContainer.animationGroups).foldl max 0 ∧
    VEvent.animationsAvailable true
      ((specGroupDurations 60 c5WContainer.animationGroups).foldl max 0) ∈
      (thenHandler RenderingMode.shaded none 60 c5WContainer).events :=
  c5_amended_theorem RenderingMode.shaded none 60 c5WContainer
    (by simp [c5WContainer])

/- ------------------------------------------------------------------
Theorems: Scene Graph Extractor predicates (claim C6)
------------------------------------------------------------------- -/

/-- The synthesized Unnamed labels are never double-underscore
wrapped. -/
theorem strStartsWith_unnamed (kind : NodeKind) :
    strStartsWith ("Unnamed " ++ typeString kind) "__" = false := by
  cases kind <;> decide

/-- C6 (counterexample).  The root-level predicate and the child
predicate are not identical: a node outside the main scene is admitted
as a root but excluded as a child. -/
theorem c6_counterexample :
    rootAdmitEff c6Node = true ∧ childAdmit c6Node = false := by
  constructor
  · show (rootAdmitPre c6Node && !(rootPrune (buildNodeHierarchy c6Node))) = true
    rw [show buildNodeHierarchy c6Node =
        ModelNode.mk (toString 7) "a" "TransformNode" [] from by
      rw [show c6Node = BNode.mk 7 "a" NodeKind.transformNode false [] from rfl,
        buildNodeHierarchy_mk]
      rfl]
    decide
  · decide

/-- C6 (amended).  For nodes of the main scene whose name is not
double-underscore wrapped, the effective root-level admission and the
child admission coincide; the predicates differ only in the child
filter's scene-membership test and the root level's post-build prune of
wrapped empty non-mesh nodes. -/
theorem c6_amended_theorem (n : BNode) (h1 : n.inScene = true)
    (h2 : (strStartsWith n.name "__" && strEndsWith n.name "__") = false) :
    rootAdmitEff n = childAdmit n := by
  cases n with
  | mk uid nm kind sc children =>
    have hsc : sc = true := h1
    subst hsc
    have h2n : (strStartsWith nm "__" && strEndsWith nm "__") = false := h2
    have hprune : rootPrune (buildNodeHierarchy (BNode.mk uid nm kind true children)) = false := by
      rw [buildNodeHierarchy_mk]
      unfold rootPrune
      simp only [ModelNode.name, ModelNode.children, ModelNode.nodeType]
      by_cases hnm : nm = ""
      · rw [if_pos hnm, strStartsWith_unnamed]
        rfl
      · rw [if_neg hnm]
        cases hs : strStartsWith nm "__" with
        | false => rfl
        | true =>
          have he : strEndsWith nm "__" = false := by
            cases hev : strEndsWith nm "__" with
            | false => rfl
            | true =>
              rw [hs, hev] at h2n
              exact absurd h2n (by decide)
          rw [he]
          rfl
    unfold rootAdmitEff
    rw [hprune]
    unfold rootAdmitPre childAdmit
    simp only [BNode.name, BNode.kind, BNode.inScene, BNode.children, h2n,
      Bool.not_false, Bool.true_or, Bool.true_and, Bool.and_true]
    cases hA : decide (nm = "grid") <;>
    cases hB : decide (nm = "camera") <;>
    cases hC : strStartsWith nm "light1" <;>
    cases hD : strStartsWith nm "light2" <;>
    cases hE : decide (kind = NodeKind.hemisphericLight) <;>
    cases hF : decide (kind = NodeKind.arcRotateCamera) <;>
      simp [hA, hB, hC, hD, hE, hF]

/-- C6 witness: agreement of root and child admission at a concrete
in-scene node. -/
theorem c6_witness :
    rootAdmitEff c6WNode = childAdmit c6WNode :=
  c6_amended_theorem c6WNode rfl (by decide)

/- ------------------------------------------------------------------
Theorems: solo visibility toggle (claim C2)
------------------------------------------------------------------- -/

theorem mem_jsSetAdd (l : List String) (x y : String) :
    y ∈ jsSetAdd l x ↔ y ∈ l ∨ y = x := by
  unfold jsSetAdd
  by_cases h : x ∈ l
  · rw [if_pos h]
    constructor
    · exact Or.inl
    · rintro (hy | rfl)
      · exact hy
      · exact h
  · rw [if_neg h]
    simp [List.mem_append]

theorem mem_buildSoloHidden_aux (meshId : String) (allIds : List String) :
    ∀ (acc : List String) (y : String),
      y ∈ allIds.foldl (fun a id => if id ≠ meshId then jsSetAdd a id else a) acc ↔
      y ∈ acc ∨ (y ∈ allIds ∧ y ≠ meshId) := by
  induction allIds with
  | nil =>
    intro acc y
    simp
  | cons i rest ih =>
    intro acc y
    show y ∈ rest.foldl _ (if i ≠ meshId then jsSetAdd acc i else acc) ↔ _
    rw [ih]
    by_cases hi : i ≠ meshId
    · rw [if_pos hi, mem_jsSetAdd]
      constructor
      · rintro ((hy | rfl) | ⟨hr, hm⟩)
        · exact Or.inl hy
        · exact Or.inr ⟨List.mem_cons_self _ _, hi⟩
        · exact Or.inr ⟨List.mem_cons_of_mem _ hr, hm⟩
      · rintro (hy | ⟨hmem, hm⟩)
        · exact Or.inl (Or.inl hy)
        · rcases List.mem_cons.mp hmem with rfl | hr
          · exact Or.inl (Or.inr rfl)
          · exact Or.inr ⟨hr, hm⟩
    · rw [if_neg hi]
      push_neg at hi
      subst hi
      constructor
      · rintro (hy | ⟨hr, hm⟩)
        · exact Or.inl hy
        · exact Or.inr ⟨List.mem_cons_of_mem _ hr, hm⟩
      · rintro (hy | ⟨hmem, hm⟩)
        · exact Or.inl hy
        · rcases List.mem_cons.mp hmem with rfl | hr
          · exact absurd rfl hm
          · exact Or.inr ⟨hr, hm⟩

theorem mem_buildSoloHidden (allIds : List String) (meshId y : String) :
    y ∈ buildSoloHidden allIds meshId ↔ y ∈ allIds ∧ y ≠ meshId := by
  unfold buildSoloHidden
  rw [mem_buildSoloHidden_aux]
  simp

/-- C2 (amended).  Ctrl-toggling a mesh with solo inactive hides
exactly the other hierarchy mesh ids and activates solo; ctrl-toggling
with solo active deactivates solo and clears the hidden set to empty
(it does not restore the pre-solo hidden set). -/
theorem c2_amended_theorem (hier : List ModelNode) (m : String) (s : VisState) :
    (s.isSoloActive = false →
      ((handleToggleMeshVisibility hier m true s).isSoloActive = true ∧
       ∀ y, y ∈ (handleToggleMeshVisibility hier m true s).hiddenMeshIds ↔
         (y ∈ getAllMeshIdsFromHierarchy hier ∧ y ≠ m))) ∧
    (s.isSoloActive = true →
      handleToggleMeshVisibility hier m true s = ⟨[], false⟩) := by
  constructor
  · intro hs
    unfold handleToggleMeshVisibility
    rw [if_pos rfl, if_neg (by rw [hs]; exact Bool.false_ne_true)]
    exact ⟨rfl, fun y => mem_buildSoloHidden _ m y⟩
  · intro hs
    unfold handleToggleMeshVisibility
    rw [if_pos rfl, if_pos hs]

/-- C2 (counterexample).  With meshes a, b, m and pre-solo hidden set
containing a, entering solo on m and ctrl-toggling m again leaves the
hidden set empty, not the pre-solo set containing a. -/
theorem c2_counterexample :
    (handleToggleMeshVisibility c2Hierarchy "m" true ⟨["a"], false⟩).isSoloActive = true ∧
    (handleToggleMeshVisibility c2Hierarchy "m" true
      (handleToggleMeshVisibility c2Hierarchy "m" true ⟨["a"], false⟩)).hiddenMeshIds = [] ∧
    (["a"] : List String) ≠ [] := by
  exact ⟨rfl, rfl, by decide⟩

/-- C2 witness: both halves of the amended law at a concrete
hierarchy. -/
theorem c2_witness :
    ((handleToggleMeshVisibility c2Hierarchy "m" true ⟨["a"], false⟩).isSoloActive = true ∧
     ∀ y, y ∈ (handleToggleMeshVisibility c2Hierarchy "m" true ⟨["a"], false⟩).hiddenMeshIds ↔
       (y ∈ getAllMeshIdsFromHierarchy c2Hierarchy ∧ y ≠ "m")) ∧
    handleToggleMeshVisibility c2Hierarchy "m" true ⟨["a"], true⟩ = ⟨[], false⟩ :=
  ⟨(c2_amended_theorem c2Hierarchy "m" ⟨["a"], false⟩).1 rfl,
   (c2_amended_theorem c2Hierarchy "m" ⟨["a"], true⟩).2 rfl⟩

/- ------------------------------------------------------------------
Theorems: stale-load race (claim C1)
------------------------------------------------------------------- -/

/-- C1.  After the trace above the container of the superseded request
1 is attached to the scene and stored in the container ref although the
authoritative request is 2, the success callbacks were emitted for the
stale result, and nothing was disposed: the claimed stale-result
discard does not exist in the code. -/
theorem c1_theorem :
    c1Trace.current = some 2 ∧
    c1Trace.attached = [1] ∧
    c1Trace.refC = some 1 ∧
    LEvent.modelLoadedTrue 1 ∈ c1Trace.events ∧
    c1Trace.disposed = [] := by
  decide

end StudioViewer

